import Mathlib

/-!
Shallow embedding of the MD-notebook `simulate` function (src/main.ipynb).

Modelling conventions:
* Python floats are modelled as exact rationals (`ℚ`); the claims under
  study concern which value is embedded where, not binary rounding.
* The three lookup tables live in `data/data.py`, which is not part of the
  sources; they are modelled from the spec (see their doc comments).
* The external engine (LAMMPS), the structure reader/writer (ase) and the
  trajectory loader (mdtraj) are abstracted as an `EngineModel` oracle;
  the configuration script handed to the engine is kept as a structured
  list of directives, one per line of the source f-string.
* `sys.stdout` redirection and the fixed-name files are modelled by an
  explicit `SimState` threaded through `simulate`; a raised Python
  exception becomes `Except.error` carrying the state at the raise point.
-/

namespace MDNotebook

/-- A Lennard-Jones record of the `LJ_PARAMS` table: cutoff distance,
well depth epsilon and particle diameter sigma. -/
structure LJEntry where
  cutoff : ℚ
  epsilon : ℚ
  sigma : ℚ
deriving DecidableEq, Repr

/-- A record of the `CRYSTAL_STRUCTURE` table: crystal symmetry name and
equilibrium lattice parameter. -/
structure CrystalEntry where
  symmetry : String
  lattice_param : ℚ
deriving DecidableEq, Repr

/-- Modelled from the spec: the `LJ_PARAMS` dictionary imported from
`data.data`, which is absent from the sources. The spec fixes its shape
(keyed by chemical symbol, attributes cutoff/epsilon/sigma) and the
notebook uses the keys Au, Li and W; the numeric values are
representative placeholders on which no claim depends. A missing key
yields `none`, the model of a Python `KeyError` on subscripting. -/
def LJ_PARAMS (element : String) : Option LJEntry :=
  if element = "Au" then some ⟨10, 5.29, 2.629⟩
  else if element = "Li" then some ⟨10, 1.05, 2.839⟩
  else if element = "W" then some ⟨10, 9.0, 2.734⟩
  else none

/-- Modelled from the spec: the `ATOMIC_MASS` dictionary imported from
`data.data` (absent from the sources), keyed by chemical symbol with the
atomic mass as value. -/
def ATOMIC_MASS (element : String) : Option ℚ :=
  if element = "Au" then some 196.97
  else if element = "Li" then some 6.94
  else if element = "W" then some 183.84
  else none

/-- Modelled from the spec: the `CRYSTAL_STRUCTURE` dictionary imported
from `data.data` (absent from the sources), keyed by chemical symbol with
crystal symmetry name and equilibrium lattice parameter. -/
def CRYSTAL_STRUCTURE (element : String) : Option CrystalEntry :=
  if element = "Au" then some ⟨"fcc", 4.08⟩
  else if element = "Li" then some ⟨"bcc", 3.51⟩
  else if element = "W" then some ⟨"bcc", 3.16⟩
  else none

/-- Python's `float()` applied to a numeric argument: value preserving in
the rational model. -/
def pyFloat (q : ℚ) : ℚ := q

/-- Python's `int()` applied to a numeric argument: truncation toward
zero (floor for non-negative, ceiling for negative values). -/
def pyInt (q : ℚ) : ℤ := if 0 ≤ q then ⌊q⌋ else ⌈q⌉

/-- One line of the LAMMPS configuration script assembled by `simulate`,
in source order; fields record the interpolated Python values, and
`String` fields named `...Var` record references to LAMMPS variables
(the source's `$T`, `${size}`, `${dt}`, `${writefreq}`). -/
inductive Directive where
  | clear : Directive
  | units (style : String) : Directive
  | dimension (d : ℕ) : Directive
  | boundary (x y z : String) : Directive
  | atomStyle (style : String) : Directive
  | variableEq (name : String) (value : ℚ) : Directive
  | lattice (symmetry : String) (param : ℚ) : Directive
  | region (name kind sizeVar : String) : Directive
  | createBox (ntypes : ℕ) (rg : String) : Directive
  | latticeOrient (symmetry : String) (param : ℚ) : Directive
  | createAtoms (typ : ℕ) (rg : String) : Directive
  | pairStyle (style : String) (cutoff : ℚ) : Directive
  | pairCoeff (epsilon sigma : ℚ) : Directive
  | mass (typ : ℕ) (m : ℚ) : Directive
  | timestep (dtVar : String) : Directive
  | velocity (group tVar : String) (seed : ℕ) : Directive
  | fixNvt (id grp tStartVar tStopVar : String) : Directive
  | dump (id grp freqVar file : String) : Directive
  | computeCount (id : String) : Directive
  | variableStr (name expr : String) : Directive
  | thermoStyle (cols : String) : Directive
  | thermo (every : ℕ) : Directive
  | writeData (file : String) : Directive
deriving DecidableEq, Repr

/-- The body of the source f-string `setup`, one directive per line, with
the given interpolated values already in place. -/
def mkDirectives (symmetry : String) (lattice_parameter : ℚ) (lj : LJEntry)
    (m : ℚ) (temperature size : ℚ) : List Directive :=
  [ Directive.clear,
    Directive.units "metal",
    Directive.dimension 3,
    Directive.boundary "p" "p" "p",
    Directive.atomStyle "atomic",
    Directive.variableEq "writefreq" 100,
    Directive.variableEq "dt" 0.001,
    Directive.variableEq "T" (pyFloat temperature * 10),
    Directive.variableEq "size" ((pyInt size : ℤ) : ℚ),
    Directive.lattice symmetry lattice_parameter,
    Directive.region "whole" "block" "size",
    Directive.createBox 1 "whole",
    Directive.latticeOrient symmetry lattice_parameter,
    Directive.createAtoms 1 "whole",
    Directive.pairStyle "lj/cut" lj.cutoff,
    Directive.pairCoeff lj.epsilon lj.sigma,
    Directive.mass 1 m,
    Directive.timestep "dt",
    Directive.velocity "all" "T" 90909,
    Directive.fixNvt "mynvt" "all" "T" "T",
    Directive.dump "mydump" "all" "writefreq" "atom.lammpstrj",
    Directive.computeCount "numatoms",
    Directive.variableStr "ke_kilojoules" "ke * 1.602e-19 / atoms * 6.022e23",
    Directive.thermoStyle "custom step temp etotal ke pe v_ke_kilojoules",
    Directive.thermo 1000,
    Directive.writeData "initial.data" ]

/-- A Python exception escaping `simulate`: a `KeyError` on a lookup-table
subscript, or a failure raised by one of the external libraries. -/
inductive SimError where
  | keyError (key : String) : SimError
  | engineError : SimError
deriving DecidableEq, Repr

/-- The lattice-parameter selection at the top of `simulate`:
`LJ_PARAMS[element]['cutoff'] * 0.8` when crystallizing, else
`CRYSTAL_STRUCTURE[element]['lattice_param']`; a missing key raises
`KeyError`. -/
def latticeParameterOf (element : String) (crystallize : Bool) :
    Except SimError ℚ :=
  if crystallize then
    match LJ_PARAMS element with
    | some p => Except.ok (p.cutoff * 0.8)
    | none => Except.error (SimError.keyError element)
  else
    match CRYSTAL_STRUCTURE element with
    | some c => Except.ok c.lattice_param
    | none => Except.error (SimError.keyError element)

/-- Evaluation of the `setup` f-string: each table subscript inside the
string may raise `KeyError`; on success the structured directive list is
produced. -/
def buildSetup (element : String) (temperature size : ℚ)
    (lattice_parameter : ℚ) : Except SimError (List Directive) :=
  match CRYSTAL_STRUCTURE element, LJ_PARAMS element, ATOMIC_MASS element with
  | some cs, some lj, some m =>
      Except.ok (mkDirectives cs.symmetry lattice_parameter lj m temperature size)
  | _, _, _ => Except.error (SimError.keyError element)

/-- The full configuration derivation for given arguments: lattice
parameter selection followed by f-string assembly. -/
def configOf (element : String) (temperature size : ℚ)
    (crystallize : Bool) : Except SimError (List Directive) :=
  match latticeParameterOf element crystallize with
  | Except.error e => Except.error e
  | Except.ok lp => buildSetup element temperature size lp

/-- The directive list produced on the success path, as a function of the
table entries and arguments. -/
def okDirectives (lj : LJEntry) (cs : CrystalEntry) (m : ℚ)
    (temperature size : ℚ) (crystallize : Bool) : List Directive :=
  mkDirectives cs.symmetry
    (if crystallize then lj.cutoff * 0.8 else cs.lattice_param)
    lj m temperature size

/-- A submission to the external engine: `l.commands_string(setup)` or
`l.command("run N")`. -/
inductive EngineEvent where
  | cmds (script : List Directive) : EngineEvent
  | runSteps (steps : ℕ) : EngineEvent
deriving DecidableEq, Repr

/-- The ambient interpreter state observed by `simulate`: the current
`sys.stdout` target (`none` = the original console stream), the file
system as a map from fixed file names to contents, and the trace of
submissions made to the external engine. -/
structure SimState where
  stdoutTarget : Option String
  files : String → Option String
  submitted : List EngineEvent

/-- Overwrite-write of a file: `open(name, 'w')` semantics and the
engine's fixed-name outputs both replace previous content. -/
def setFile (fs : String → Option String) (name content : String) :
    String → Option String :=
  fun n => if n = name then some content else fs n

/-- Modelled from the spec: the external MD engine (LAMMPS), the ase
structure reader/converter and the mdtraj loader, which are all outside
this repository. `commandsOk`/`runOk` say whether the engine accepts the
configuration and completes the run; `postOk` whether the post-run
reads/conversions succeed; `log` is the diagnostic text captured into
`stdout.txt`; `dataContent` and `trajContent` are the files the engine
writes for `write_data initial.data` and the `atom.lammpstrj` dump, as
functions of the submitted script; `groOf` is ase's conversion of the
initial structure to `initial.gro`. -/
structure EngineModel where
  commandsOk : List Directive → Bool
  runOk : List Directive → Bool
  postOk : Bool
  log : List Directive → String
  dataContent : List Directive → String
  trajContent : List Directive → String
  groOf : String → String

/-- The viewer handle returned on success; its fixed rendering parameters
are outside the claims under study. -/
abbrev View := Unit

/-- The `simulate(element, temperature, size, crystallize)` function of
src/main.ipynb, step for step in source order:
lattice-parameter selection; `old_stdout = sys.stdout` and redirect of
`sys.stdout` to a freshly truncated `stdout.txt`; assembly of the `setup`
f-string; `l.commands_string(setup)` (which makes the engine write
`initial.data` and create the `atom.lammpstrj` dump); `l.command("run
10000")` (which fills the dump and the captured log); the post-run read
of `initial.data`, its conversion to `initial.gro` and the trajectory
load; finally `sys.stdout = old_stdout` and return of the view. An
`Except.error` carries the error and the state at the raise point —
the source has no try/finally, so nothing is undone on an exception. -/
def simulate (E : EngineModel) (element : String) (temperature : ℚ)
    (size : ℚ) (crystallize : Bool) (s : SimState) :
    Except (SimError × SimState) (SimState × View) :=
  match latticeParameterOf element crystallize with
  | Except.error e => Except.error (e, s)
  | Except.ok lattice_parameter =>
    let s1 : SimState :=
      { stdoutTarget := some "stdout.txt",
        files := setFile s.files "stdout.txt" "",
        submitted := s.submitted }
    match buildSetup element temperature size lattice_parameter with
    | Except.error e => Except.error (e, s1)
    | Except.ok setup =>
      let sSub : SimState :=
        { s1 with submitted := s1.submitted ++ [EngineEvent.cmds setup] }
      if E.commandsOk setup = false then
        Except.error (SimError.engineError, sSub)
      else
        let s2 : SimState :=
          { sSub with
            files := setFile (setFile sSub.files "initial.data"
              (E.dataContent setup)) "atom.lammpstrj" "" }
        let sRun : SimState :=
          { s2 with submitted := s2.submitted ++ [EngineEvent.runSteps 10000] }
        if E.runOk setup = false then
          Except.error (SimError.engineError, sRun)
        else
          let s3 : SimState :=
            { sRun with
              files := setFile (setFile sRun.files "atom.lammpstrj"
                (E.trajContent setup)) "stdout.txt" (E.log setup) }
          if E.postOk = false then
            Except.error (SimError.engineError, s3)
          else
            let s4 : SimState :=
              { s3 with
                files := setFile s3.files "initial.gro"
                  (E.groOf (E.dataContent setup)) }
            Except.ok ({ s4 with stdoutTarget := s.stdoutTarget }, ())

/-- Projection of the engine-submission trace from the outcome of a call,
whether it returned or raised. -/
def finalState (r : Except (SimError × SimState) (SimState × View)) : SimState :=
  match r with
  | Except.error (_, st) => st
  | Except.ok (st, _) => st

/-- The `sys.stdout` target left behind by a call that raised; `none` when
the call returned normally. -/
def errStdoutTarget (r : Except (SimError × SimState) (SimState × View)) :
    Option (Option String) :=
  match r with
  | Except.error (_, st) => some st.stdoutTarget
  | Except.ok _ => none

/-- Number of `run` commands in a submission trace. -/
def runEventCount (evs : List EngineEvent) : ℕ :=
  (evs.filter fun ev =>
    match ev with
    | EngineEvent.runSteps _ => true
    | _ => false).length

/-- A fresh interpreter state: console stdout, empty file system, no
submissions yet. -/
def sInit : SimState :=
  { stdoutTarget := none, files := fun _ => none, submitted := [] }

/-- An engine that accepts and completes everything, with fixed file
contents. -/
def engineOk : EngineModel :=
  { commandsOk := fun _ => true, runOk := fun _ => true, postOk := true,
    log := fun _ => "LOG", dataContent := fun _ => "DATA",
    trajContent := fun _ => "TRAJ", groOf := fun _ => "GRO" }

/-- An engine that rejects every submitted configuration. -/
def engineReject : EngineModel :=
  { engineOk with commandsOk := fun _ => false }

/-- The state left by a first successful call (gold at 300 K). -/
def s1Au : SimState :=
  match simulate engineOk "Au" 300 3 false sInit with
  | Except.ok (st, _) => st
  | Except.error _ => sInit

/-- The state left by a second successful call (tungsten at 500 K,
crystallizing), started from the state the first call left behind. -/
def s2W : SimState :=
  match simulate engineOk "W" 500 2 true s1Au with
  | Except.ok (st, _) => st
  | Except.error _ => sInit

/-- The state left by repeating the first call's arguments (gold at
300 K) from the state the first call left behind. -/
def s2Au : SimState :=
  match simulate engineOk "Au" 300 3 false s1Au with
  | Except.ok (st, _) => st
  | Except.error _ => sInit

/-- The state left behind by a call whose post-run file reads fail:
engine accepted and ran, then the read of initial.data raised. -/
def errLi : SimState :=
  match simulate { engineOk with postOk := false } "Li" 200 2 true sInit with
  | Except.error (_, st) => st
  | Except.ok (st, _) => st

lemma configOf_eq (element : String) (lj : LJEntry) (cs : CrystalEntry)
    (m : ℚ) (hlj : LJ_PARAMS element = some lj)
    (hcs : CRYSTAL_STRUCTURE element = some cs)
    (hm : ATOMIC_MASS element = some m) (t sz : ℚ) (c : Bool) :
    configOf element t sz c = Except.ok (okDirectives lj cs m t sz c) := by
  cases c <;>
    simp [configOf, latticeParameterOf, buildSetup, okDirectives, hlj, hcs, hm]

/-- C1: for a tabulated element, `simulate` derives the lattice parameter
as `LJ_PARAMS[element]['cutoff'] * 0.8` when `crystallize` is true and as
`CRYSTAL_STRUCTURE[element]['lattice_param']` when it is false; with the
element and all other arguments fixed, the two generated configurations
are the same directive list except for which of the two values is
embedded as the lattice parameter. -/
theorem C1_crystallize_lattice_selection (element : String) (lj : LJEntry)
    (cs : CrystalEntry) (m : ℚ) (hlj : LJ_PARAMS element = some lj)
    (hcs : CRYSTAL_STRUCTURE element = some cs)
    (hm : ATOMIC_MASS element = some m) (t sz : ℚ) :
    configOf element t sz true =
      Except.ok (mkDirectives cs.symmetry (lj.cutoff * 0.8) lj m t sz) ∧
    configOf element t sz false =
      Except.ok (mkDirectives cs.symmetry cs.lattice_param lj m t sz) := by
  constructor <;>
    simp [configOf, latticeParameterOf, buildSetup, hlj, hcs, hm]

/-- Witness for C1 at the concrete element Au. -/
theorem C1_witness :
    LJ_PARAMS "Au" = some ⟨10, 5.29, 2.629⟩ ∧
    CRYSTAL_STRUCTURE "Au" = some ⟨"fcc", 4.08⟩ ∧
    ATOMIC_MASS "Au" = some 196.97 ∧
    (configOf "Au" 300 3 true =
      Except.ok (mkDirectives "fcc" (10 * 0.8) ⟨10, 5.29, 2.629⟩ 196.97 300 3) ∧
     configOf "Au" 300 3 false =
      Except.ok (mkDirectives "fcc" 4.08 ⟨10, 5.29, 2.629⟩ 196.97 300 3)) :=
  ⟨rfl, rfl, rfl,
    C1_crystallize_lattice_selection "Au" ⟨10, 5.29, 2.629⟩ ⟨"fcc", 4.08⟩
      196.97 rfl rfl rfl 300 3⟩

/-- C2: for any valid invocation, the generated configuration assigns
variable `T` the requested temperature multiplied by the fixed factor 10,
and that variable is the one referenced by the velocity-creation
directive and by both thermostat targets. -/
theorem C2_temperature_times_ten (element : String) (lj : LJEntry)
    (cs : CrystalEntry) (m : ℚ) (hlj : LJ_PARAMS element = some lj)
    (hcs : CRYSTAL_STRUCTURE element = some cs)
    (hm : ATOMIC_MASS element = some m) (t sz : ℚ) (c : Bool) :
    configOf element t sz c = Except.ok (okDirectives lj cs m t sz c) ∧
    Directive.variableEq "T" (t * 10) ∈ okDirectives lj cs m t sz c ∧
    Directive.velocity "all" "T" 90909 ∈ okDirectives lj cs m t sz c ∧
    Directive.fixNvt "mynvt" "all" "T" "T" ∈ okDirectives lj cs m t sz c := by
  refine ⟨configOf_eq element lj cs m hlj hcs hm t sz c, ?_, ?_, ?_⟩ <;>
    simp [okDirectives, mkDirectives, pyFloat]

/-- Witness for C2 at Au, 300 K. -/
theorem C2_witness :
    LJ_PARAMS "Au" = some ⟨10, 5.29, 2.629⟩ ∧
    CRYSTAL_STRUCTURE "Au" = some ⟨"fcc", 4.08⟩ ∧
    ATOMIC_MASS "Au" = some 196.97 ∧
    (configOf "Au" 300 3 false =
      Except.ok (okDirectives ⟨10, 5.29, 2.629⟩ ⟨"fcc", 4.08⟩ 196.97 300 3 false) ∧
     Directive.variableEq "T" (300 * 10) ∈
      okDirectives ⟨10, 5.29, 2.629⟩ ⟨"fcc", 4.08⟩ 196.97 300 3 false ∧
     Directive.velocity "all" "T" 90909 ∈
      okDirectives ⟨10, 5.29, 2.629⟩ ⟨"fcc", 4.08⟩ 196.97 300 3 false ∧
     Directive.fixNvt "mynvt" "all" "T" "T" ∈
      okDirectives ⟨10, 5.29, 2.629⟩ ⟨"fcc", 4.08⟩ 196.97 300 3 false) :=
  ⟨rfl, rfl, rfl,
    C2_temperature_times_ten "Au" ⟨10, 5.29, 2.629⟩ ⟨"fcc", 4.08⟩ 196.97
      rfl rfl rfl 300 3 false⟩

/-- C6: for a tabulated element, the generated configuration embeds the
tabulated Lennard-Jones cutoff in the pair_style directive, epsilon and
sigma in the pair_coeff directive, the tabulated atomic mass in the mass
directive, and the crystal symmetry name in both lattice directives. -/
theorem C6_tabulated_parameters_embedded (element : String) (lj : LJEntry)
    (cs : CrystalEntry) (m : ℚ) (hlj : LJ_PARAMS element = some lj)
    (hcs : CRYSTAL_STRUCTURE element = some cs)
    (hm : ATOMIC_MASS element = some m) (t sz : ℚ) (c : Bool) :
    configOf element t sz c = Except.ok (okDirectives lj cs m t sz c) ∧
    Directive.pairStyle "lj/cut" lj.cutoff ∈ okDirectives lj cs m t sz c ∧
    Directive.pairCoeff lj.epsilon lj.sigma ∈ okDirectives lj cs m t sz c ∧
    Directive.mass 1 m ∈ okDirectives lj cs m t sz c ∧
    Directive.lattice cs.symmetry
      (if c then lj.cutoff * 0.8 else cs.lattice_param) ∈
      okDirectives lj cs m t sz c ∧
    Directive.latticeOrient cs.symmetry
      (if c then lj.cutoff * 0.8 else cs.lattice_param) ∈
      okDirectives lj cs m t sz c := by
  refine ⟨configOf_eq element lj cs m hlj hcs hm t sz c, ?_, ?_, ?_, ?_, ?_⟩ <;>
    simp [okDirectives, mkDirectives]

/-- Witness for C6 at W, 500 K, crystallize = true. -/
theorem C6_witness :
    LJ_PARAMS "W" = some ⟨10, 9.0, 2.734⟩ ∧
    CRYSTAL_STRUCTURE "W" = some ⟨"bcc", 3.16⟩ ∧
    ATOMIC_MASS "W" = some 183.84 ∧
    (configOf "W" 500 2 true =
      Except.ok (okDirectives ⟨10, 9.0, 2.734⟩ ⟨"bcc", 3.16⟩ 183.84 500 2 true) ∧
     Directive.pairStyle "lj/cut" (10 : ℚ) ∈
      okDirectives ⟨10, 9.0, 2.734⟩ ⟨"bcc", 3.16⟩ 183.84 500 2 true ∧
     Directive.pairCoeff (9.0 : ℚ) (2.734 : ℚ) ∈
      okDirectives ⟨10, 9.0, 2.734⟩ ⟨"bcc", 3.16⟩ 183.84 500 2 true ∧
     Directive.mass 1 (183.84 : ℚ) ∈
      okDirectives ⟨10, 9.0, 2.734⟩ ⟨"bcc", 3.16⟩ 183.84 500 2 true ∧
     Directive.lattice "bcc" (if true then (10 : ℚ) * 0.8 else 3.16) ∈
      okDirectives ⟨10, 9.0, 2.734⟩ ⟨"bcc", 3.16⟩ 183.84 500 2 true ∧
     Directive.latticeOrient "bcc" (if true then (10 : ℚ) * 0.8 else 3.16) ∈
      okDirectives ⟨10, 9.0, 2.734⟩ ⟨"bcc", 3.16⟩ 183.84 500 2 true) :=
  ⟨rfl, rfl, rfl,
    C6_tabulated_parameters_embedded "W" ⟨10, 9.0, 2.734⟩ ⟨"bcc", 3.16⟩
      183.84 rfl rfl rfl 500 2 true⟩

/-- C8: the three lookup tables are mutually consistent — an element key
present in any one of them is present in the other two. -/
theorem C8_table_consistency (element : String) :
    ((LJ_PARAMS element).isSome ↔ (ATOMIC_MASS element).isSome) ∧
    ((LJ_PARAMS element).isSome ↔ (CRYSTAL_STRUCTURE element).isSome) := by
  unfold LJ_PARAMS ATOMIC_MASS CRYSTAL_STRUCTURE
  split_ifs <;> simp

/-- C10: `simulate` coerces rather than validates: for every rational
temperature (positive or not) and every rational size (fractional or
not), configuration assembly succeeds, embedding `float(temperature)*10`
and `int(size)`; `int()` truncates toward zero (e.g. 3.5 ↦ 3 and
-3.5 ↦ -3), and `float()` passes non-positive temperatures through. -/
theorem C10_coercions_no_validation (element : String) (lj : LJEntry)
    (cs : CrystalEntry) (m : ℚ) (hlj : LJ_PARAMS element = some lj)
    (hcs : CRYSTAL_STRUCTURE element = some cs)
    (hm : ATOMIC_MASS element = some m) :
    (∀ (t sz : ℚ) (c : Bool),
      configOf element t sz c = Except.ok (okDirectives lj cs m t sz c) ∧
      Directive.variableEq "T" (pyFloat t * 10) ∈ okDirectives lj cs m t sz c ∧
      Directive.variableEq "size" ((pyInt sz : ℤ) : ℚ) ∈
        okDirectives lj cs m t sz c) ∧
    pyInt (7 / 2) = 3 ∧ pyInt (-7 / 2) = -3 ∧ pyFloat (-300) = -300 := by
  refine ⟨fun t sz c => ⟨configOf_eq element lj cs m hlj hcs hm t sz c, ?_, ?_⟩,
    ?_, ?_, rfl⟩
  · simp [okDirectives, mkDirectives]
  · simp [okDirectives, mkDirectives]
  · norm_num [pyInt]
  · norm_num [pyInt, Int.ceil_eq_iff]

/-- Witness for C10 at Li with a negative temperature and a fractional
size. -/
theorem C10_witness :
    LJ_PARAMS "Li" = some ⟨10, 1.05, 2.839⟩ ∧
    CRYSTAL_STRUCTURE "Li" = some ⟨"bcc", 3.51⟩ ∧
    ATOMIC_MASS "Li" = some 6.94 ∧
    (configOf "Li" (-300) (7 / 2) false =
      Except.ok (okDirectives ⟨10, 1.05, 2.839⟩ ⟨"bcc", 3.51⟩ 6.94 (-300) (7 / 2) false) ∧
     Directive.variableEq "T" (pyFloat (-300) * 10) ∈
      okDirectives ⟨10, 1.05, 2.839⟩ ⟨"bcc", 3.51⟩ 6.94 (-300) (7 / 2) false ∧
     Directive.variableEq "size" ((pyInt (7 / 2) : ℤ) : ℚ) ∈
      okDirectives ⟨10, 1.05, 2.839⟩ ⟨"bcc", 3.51⟩ 6.94 (-300) (7 / 2) false) :=
  ⟨rfl, rfl, rfl,
    (C10_coercions_no_validation "Li" ⟨10, 1.05, 2.839⟩ ⟨"bcc", 3.51⟩ 6.94
      rfl rfl rfl).1 (-300) (7 / 2) false⟩

lemma simulate_ok_inv (E : EngineModel) (element : String) (t sz : ℚ)
    (c : Bool) (s s' : SimState) (v : View)
    (h : simulate E element t sz c s = Except.ok (s', v)) :
    ∃ lj cs m, LJ_PARAMS element = some lj ∧
      CRYSTAL_STRUCTURE element = some cs ∧ ATOMIC_MASS element = some m ∧
      s'.stdoutTarget = s.stdoutTarget ∧
      s'.submitted = s.submitted ++
        [EngineEvent.cmds (okDirectives lj cs m t sz c),
         EngineEvent.runSteps 10000] ∧
      s'.files "stdout.txt" = some (E.log (okDirectives lj cs m t sz c)) ∧
      s'.files "initial.data" =
        some (E.dataContent (okDirectives lj cs m t sz c)) ∧
      s'.files "atom.lammpstrj" =
        some (E.trajContent (okDirectives lj cs m t sz c)) ∧
      s'.files "initial.gro" =
        some (E.groOf (E.dataContent (okDirectives lj cs m t sz c))) := by
  rcases hlj : LJ_PARAMS element with _ | lj <;>
    rcases hcs : CRYSTAL_STRUCTURE element with _ | cs <;>
      rcases hm : ATOMIC_MASS element with _ | m <;>
        cases c <;>
          simp [simulate, latticeParameterOf, buildSetup, hlj, hcs, hm] at h <;>
          · refine ⟨lj, cs, m, rfl, rfl, rfl, ?_⟩
            split at h
            · exact absurd h (by simp)
            · split at h
              · exact absurd h (by simp)
              · split at h
                · exact absurd h (by simp)
                · injection h with h1
                  injection h1 with hs hv
                  subst hs
                  exact ⟨rfl, rfl, rfl, rfl, rfl, rfl⟩

/-- C3: for an element absent from the lookup tables, `simulate` raises a
`KeyError` for both values of the crystallize flag, leaving the state —
in particular the engine-submission trace — exactly as it was: nothing is
submitted to the external engine and no default is substituted. -/
theorem C3_unknown_element_keyerror (E : EngineModel) (element : String)
    (hlj : LJ_PARAMS element = none) (hcs : CRYSTAL_STRUCTURE element = none)
    (_hm : ATOMIC_MASS element = none) (t sz : ℚ) (c : Bool) (s : SimState) :
    simulate E element t sz c s =
      Except.error (SimError.keyError element, s) ∧
    (finalState (simulate E element t sz c s)).submitted = s.submitted := by
  have h : simulate E element t sz c s =
      Except.error (SimError.keyError element, s) := by
    cases c <;> simp [simulate, latticeParameterOf, hlj, hcs]
  exact ⟨h, by rw [h]; rfl⟩

/-- Witness for C3 at the unknown element symbol Xx. -/
theorem C3_witness :
    LJ_PARAMS "Xx" = none ∧ CRYSTAL_STRUCTURE "Xx" = none ∧
    ATOMIC_MASS "Xx" = none ∧
    (simulate engineOk "Xx" 300 3 true sInit =
      Except.error (SimError.keyError "Xx", sInit) ∧
     (finalState (simulate engineOk "Xx" 300 3 true sInit)).submitted =
      sInit.submitted) :=
  ⟨rfl, rfl, rfl,
    C3_unknown_element_keyerror engineOk "Xx" rfl rfl rfl 300 3 true sInit⟩

/-- C4 counterexample: the source has no try/finally around the stdout
redirection, so a call that exits through a propagating engine failure —
here an engine rejecting the configuration — leaves `sys.stdout`
redirected to stdout.txt instead of restoring the entry value (the
console, `none`): the claim's "restored on every exit" fails. -/
theorem C4_counterexample :
    errStdoutTarget (simulate engineReject "Au" 300 3 false sInit) =
      some (some "stdout.txt") ∧
    sInit.stdoutTarget = none := ⟨rfl, rfl⟩

/-- C4 (amended): `simulate` redirects stdout to stdout.txt and restores
the previous stdout on every normal return; but on every exit caused by a
propagating failure after the redirection — the engine rejecting the
configuration, the run failing, or a post-run file-I/O failure — the
redirection is left in place, not restored. (A lookup failure in the
lattice-parameter selection precedes the redirection; for a tabulated
element, every error exit occurs after it.) -/
theorem C4_stdout_redirect_restore :
    (∀ (E : EngineModel) (element : String) (t sz : ℚ) (c : Bool)
        (s s' : SimState) (v : View),
        simulate E element t sz c s = Except.ok (s', v) →
        s'.stdoutTarget = s.stdoutTarget) ∧
    (∀ (E : EngineModel) (element : String) (lj : LJEntry)
        (cs : CrystalEntry) (m : ℚ) (t sz : ℚ) (c : Bool) (s : SimState)
        (err : SimError) (st : SimState),
        LJ_PARAMS element = some lj → CRYSTAL_STRUCTURE element = some cs →
        ATOMIC_MASS element = some m →
        simulate E element t sz c s = Except.error (err, st) →
        st.stdoutTarget = some "stdout.txt") := by
  constructor
  · intro E element t sz c s s' v h
    obtain ⟨lj, cs, m, _, _, _, hstd, _⟩ :=
      simulate_ok_inv E element t sz c s s' v h
    exact hstd
  · intro E element lj cs m t sz c s err st hlj hcs hm h
    cases c <;>
      simp [simulate, latticeParameterOf, buildSetup, hlj, hcs, hm] at h <;>
      (repeat' split at h) <;>
      (try simp only [Except.error.injEq, Prod.mk.injEq] at h) <;>
      first
        | (obtain ⟨-, rfl⟩ := h
           rfl)
        | exact absurd h (by simp)

/-- Witness for C4: a successful call restores the console stdout; a call
that fails in the post-run file I/O ends with stdout still redirected to
stdout.txt. -/
theorem C4_witness :
    s1Au.stdoutTarget = sInit.stdoutTarget ∧
    errLi.stdoutTarget = some "stdout.txt" :=
  ⟨C4_stdout_redirect_restore.1 engineOk "Au" 300 3 false sInit s1Au () rfl,
   C4_stdout_redirect_restore.2 { engineOk with postOk := false } "Li"
     ⟨10, 1.05, 2.839⟩ ⟨"bcc", 3.51⟩ 6.94 200 2 true sInit
     SimError.engineError errLi rfl rfl rfl rfl⟩

/-- C5 counterexample: invoked with an element absent from the tables,
`simulate` raises a `KeyError` having issued zero run commands — not
exactly one, as the claim asserts for every invocation regardless of its
arguments. -/
theorem C5_counterexample :
    runEventCount (finalState (simulate engineOk "Xq" 300 3 false sInit)).submitted
      = 0 ∧
    sInit.submitted = [] := ⟨rfl, rfl⟩

/-- C5 (amended): every invocation whose element is found in the lookup
tables and whose configuration the engine accepts issues exactly one run
command, with the step count fixed at 10,000 regardless of the
arguments; the run command is issued even if the run itself or the
post-run processing subsequently fails. -/
theorem C5_single_run_command (E : EngineModel) (element : String)
    (lj : LJEntry) (cs : CrystalEntry) (m : ℚ) (t sz : ℚ) (c : Bool)
    (s : SimState) (hlj : LJ_PARAMS element = some lj)
    (hcs : CRYSTAL_STRUCTURE element = some cs)
    (hm : ATOMIC_MASS element = some m)
    (hcmd : E.commandsOk (okDirectives lj cs m t sz c) = true) :
    (finalState (simulate E element t sz c s)).submitted =
      s.submitted ++ [EngineEvent.cmds (okDirectives lj cs m t sz c),
                      EngineEvent.runSteps 10000] ∧
    runEventCount [EngineEvent.cmds (okDirectives lj cs m t sz c),
                   EngineEvent.runSteps 10000] = 1 := by
  refine ⟨?_, rfl⟩
  cases c <;>
    simp [simulate, latticeParameterOf, buildSetup, okDirectives,
      hlj, hcs, hm] at hcmd ⊢ <;>
    simp [hcmd] <;>
    split <;> (try split) <;> simp [finalState]

/-- Witness for C5 with an engine that accepts and completes the run:
exactly one run command, with step count 10,000, appears in the trace. -/
theorem C5_witness :
    LJ_PARAMS "Au" = some ⟨10, 5.29, 2.629⟩ ∧
    CRYSTAL_STRUCTURE "Au" = some ⟨"fcc", 4.08⟩ ∧
    ATOMIC_MASS "Au" = some 196.97 ∧
    ((finalState (simulate engineOk "Au" 300 3 false sInit)).submitted =
      sInit.submitted ++
        [EngineEvent.cmds (okDirectives ⟨10, 5.29, 2.629⟩ ⟨"fcc", 4.08⟩
           196.97 300 3 false),
         EngineEvent.runSteps 10000] ∧
     runEventCount
       [EngineEvent.cmds (okDirectives ⟨10, 5.29, 2.629⟩ ⟨"fcc", 4.08⟩
          196.97 300 3 false),
        EngineEvent.runSteps 10000] = 1) :=
  ⟨rfl, rfl, rfl,
    C5_single_run_command engineOk "Au" ⟨10, 5.29, 2.629⟩ ⟨"fcc", 4.08⟩
      196.97 300 3 false sInit rfl rfl rfl rfl⟩

/-- C7: for two successive successful invocations, the four fixed-name
files are overwritten, not appended to — after the second call, each
file's content is the value the engine model derives from the second
call's configuration alone; the first call's arguments and the starting
state appear nowhere in it. -/
theorem C7_fixed_files_overwritten (E : EngineModel) (e₁ e₂ : String)
    (t₁ sz₁ t₂ sz₂ : ℚ) (c₁ c₂ : Bool) (lj : LJEntry) (cs : CrystalEntry)
    (m : ℚ) (hlj : LJ_PARAMS e₂ = some lj)
    (hcs : CRYSTAL_STRUCTURE e₂ = some cs) (hm : ATOMIC_MASS e₂ = some m)
    (s s₁ s₂ : SimState) (v₁ v₂ : View)
    (_h1 : simulate E e₁ t₁ sz₁ c₁ s = Except.ok (s₁, v₁))
    (h2 : simulate E e₂ t₂ sz₂ c₂ s₁ = Except.ok (s₂, v₂)) :
    s₂.files "stdout.txt" = some (E.log (okDirectives lj cs m t₂ sz₂ c₂)) ∧
    s₂.files "initial.data" =
      some (E.dataContent (okDirectives lj cs m t₂ sz₂ c₂)) ∧
    s₂.files "atom.lammpstrj" =
      some (E.trajContent (okDirectives lj cs m t₂ sz₂ c₂)) ∧
    s₂.files "initial.gro" =
      some (E.groOf (E.dataContent (okDirectives lj cs m t₂ sz₂ c₂))) := by
  obtain ⟨lj', cs', m', hlj', hcs', hm', _, _, hstdout, hdata, htraj, hgro⟩ :=
    simulate_ok_inv E e₂ t₂ sz₂ c₂ s₁ s₂ v₂ h2
  rw [hlj] at hlj'
  rw [hcs] at hcs'
  rw [hm] at hm'
  obtain rfl := Option.some.inj hlj'
  obtain rfl := Option.some.inj hcs'
  obtain rfl := Option.some.inj hm'
  exact ⟨hstdout, hdata, htraj, hgro⟩

/-- Witness for C7: gold at 300 K followed by tungsten at 500 K
(crystallizing); the file contents after the second call are those the
engine derives from the tungsten configuration. -/
theorem C7_witness :
    LJ_PARAMS "W" = some ⟨10, 9.0, 2.734⟩ ∧
    CRYSTAL_STRUCTURE "W" = some ⟨"bcc", 3.16⟩ ∧
    ATOMIC_MASS "W" = some 183.84 ∧
    (s2W.files "stdout.txt" =
      some (engineOk.log (okDirectives ⟨10, 9.0, 2.734⟩ ⟨"bcc", 3.16⟩
        183.84 500 2 true)) ∧
     s2W.files "initial.data" =
      some (engineOk.dataContent (okDirectives ⟨10, 9.0, 2.734⟩ ⟨"bcc", 3.16⟩
        183.84 500 2 true)) ∧
     s2W.files "atom.lammpstrj" =
      some (engineOk.trajContent (okDirectives ⟨10, 9.0, 2.734⟩ ⟨"bcc", 3.16⟩
        183.84 500 2 true)) ∧
     s2W.files "initial.gro" =
      some (engineOk.groOf (engineOk.dataContent
        (okDirectives ⟨10, 9.0, 2.734⟩ ⟨"bcc", 3.16⟩ 183.84 500 2 true)))) :=
  ⟨rfl, rfl, rfl,
    C7_fixed_files_overwritten engineOk "Au" "W" 300 3 500 2 false true
      ⟨10, 9.0, 2.734⟩ ⟨"bcc", 3.16⟩ 183.84 rfl rfl rfl
      sInit s1Au s2W () () rfl rfl⟩

/-- C9: the configuration assembly is deterministic — two calls with
equal (element, temperature, size, crystallize) arguments, from arbitrary
and possibly different ambient states and engines, submit the identical
configuration script, and every submitted script carries the fixed
velocity random seed 90909. -/
theorem C9_config_determinism (E E' : EngineModel) (element : String)
    (t sz : ℚ) (c : Bool) (s s' s₁ s₂ : SimState) (v₁ v₂ : View)
    (h1 : simulate E element t sz c s = Except.ok (s₁, v₁))
    (h2 : simulate E' element t sz c s' = Except.ok (s₂, v₂)) :
    List.drop s.submitted.length s₁.submitted =
      List.drop s'.submitted.length s₂.submitted ∧
    ∀ ds, EngineEvent.cmds ds ∈ List.drop s.submitted.length s₁.submitted →
      Directive.velocity "all" "T" 90909 ∈ ds := by
  obtain ⟨lj, cs, m, hlj, hcs, hm, _, hsub1, _⟩ :=
    simulate_ok_inv E element t sz c s s₁ v₁ h1
  obtain ⟨lj', cs', m', hlj', hcs', hm', _, hsub2, _⟩ :=
    simulate_ok_inv E' element t sz c s' s₂ v₂ h2
  rw [hlj] at hlj'
  rw [hcs] at hcs'
  rw [hm] at hm'
  obtain rfl := Option.some.inj hlj'
  obtain rfl := Option.some.inj hcs'
  obtain rfl := Option.some.inj hm'
  rw [hsub1, hsub2, List.drop_left, List.drop_left]
  refine ⟨rfl, ?_⟩
  intro ds hmem
  simp at hmem
  subst hmem
  simp [okDirectives, mkDirectives]

/-- Witness for C9: two gold runs at 300 K from different states and
engines submit the same script, which carries seed 90909. -/
theorem C9_witness :
    List.drop sInit.submitted.length s1Au.submitted =
      List.drop s1Au.submitted.length s2Au.submitted ∧
    ∀ ds, EngineEvent.cmds ds ∈
        List.drop sInit.submitted.length s1Au.submitted →
      Directive.velocity "all" "T" 90909 ∈ ds :=
  C9_config_determinism engineOk engineOk "Au" 300 3 false sInit s1Au
    s1Au s2Au () () rfl rfl

end MDNotebook
